import Mathlib

/-!
Verification of the discussion-orchestration core of the ai-brainstorm
repository.  The TypeScript sources are shallowly embedded: pure code
becomes Lean functions, the stateful protocol becomes explicit state
passing, JavaScript promises whose outcome is decided by the network are
parameters of type `Except`.
-/

deriving instance DecidableEq for Except

namespace Brainstorm

/-- Boolean test that the first character list is an initial segment of the second. -/
def leadsWith : List Char → List Char → Bool
  | [], _ => true
  | _ :: _, [] => false
  | p :: ps, c :: cs => p == c && leadsWith ps cs

/-- Boolean substring test on character lists, mirroring the semantics of
JavaScript String.prototype.includes. -/
def hasSub : List Char → List Char → Bool
  | pat, [] => leadsWith pat []
  | pat, c :: cs => leadsWith pat (c :: cs) || hasSub pat cs

/-- JavaScript s.includes(pat) on strings. -/
def strContains (s pat : String) : Bool :=
  hasSub pat.data s.data

/-- JavaScript String.prototype.trim: leading and trailing whitespace removed,
modeled structurally on the character list. -/
def jsTrim (s : String) : String :=
  ⟨((s.data.dropWhile Char.isWhitespace).reverse.dropWhile Char.isWhitespace).reverse⟩

lemma strData_append (a b : String) : (a ++ b).data = a.data ++ b.data := rfl

lemma leadsWith_extend (pat : List Char) :
    ∀ l rest, leadsWith pat l = true → leadsWith pat (l ++ rest) = true := by
  induction pat with
  | nil => intro l rest _; rfl
  | cons p ps ih =>
    intro l rest h
    cases l with
    | nil => simp [leadsWith] at h
    | cons c cs =>
      simp only [leadsWith, Bool.and_eq_true] at h ⊢
      exact ⟨h.1, ih cs rest h.2⟩

lemma hasSub_nil_pat (l : List Char) : hasSub [] l = true := by
  cases l with
  | nil => rfl
  | cons c cs => simp [hasSub, leadsWith]

lemma hasSub_extend (pat : List Char) :
    ∀ l rest, hasSub pat l = true → hasSub pat (l ++ rest) = true := by
  intro l
  induction l with
  | nil =>
    intro rest h
    have hp : pat = [] := by
      cases pat with
      | nil => rfl
      | cons p ps => simp [hasSub, leadsWith] at h
    subst hp
    simpa using hasSub_nil_pat rest
  | cons c cs ih =>
    intro rest h
    simp only [hasSub, Bool.or_eq_true] at h
    rcases h with h | h
    · have := leadsWith_extend pat (c :: cs) rest h
      simp only [List.cons_append] at this ⊢
      simp [hasSub, this]
    · have := ih rest h
      simp only [List.cons_append]
      simp [hasSub, this]

lemma hasSub_prepend (pat : List Char) :
    ∀ l1 l2, hasSub pat l2 = true → hasSub pat (l1 ++ l2) = true := by
  intro l1
  induction l1 with
  | nil => intro l2 h; simpa using h
  | cons c cs ih =>
    intro l2 h
    simp only [List.cons_append]
    simp [hasSub, ih l2 h]

/-- A substring of the middle component is a substring of the whole concatenation. -/
lemma strContains_embed (a mid c pat : String) (h : strContains mid pat = true) :
    strContains (a ++ (mid ++ c)) pat = true := by
  unfold strContains at h ⊢
  rw [strData_append, strData_append]
  exact hasSub_prepend _ _ _ (hasSub_extend _ _ _ h)

/-! ## Retry layer (src/src/utils/retry.ts) -/

/-- Retry configuration from retry.ts. -/
structure RetryConfig where
  maxAttempts : Nat
  baseDelay : Nat
  maxDelay : Nat
  backoffFactor : Nat
  retryableErrors : List String
deriving Repr, DecidableEq

/-- DEFAULT_RETRY_CONFIG from retry.ts: five attempts, fixed 2000 ms delay,
backoff factor configured as 1. -/
def DEFAULT_RETRY_CONFIG : RetryConfig :=
  { maxAttempts := 5
    baseDelay := 2000
    maxDelay := 2000
    backoffFactor := 1
    retryableErrors := ["ECONNABORTED", "ENOTFOUND", "ECONNREFUSED", "ECONNRESET",
      "ETIMEDOUT", "Network Error", "500", "502", "503", "504", "429"] }

/-- Shape of a JavaScript error value as inspected by shouldRetry: an optional
error code, an optional HTTP response status, and the message text. -/
structure RetryError where
  code : Option String
  status : Option Nat
  message : String
deriving Repr, DecidableEq

/-- shouldRetry from retry.ts: retryable iff the error code is listed, the HTTP
response status (rendered as a string) is listed, or the message contains one of
the listed signatures as a substring. -/
def shouldRetry (e : RetryError) (cfg : RetryConfig) : Bool :=
  (match e.code with
   | some c => cfg.retryableErrors.contains c
   | none => false)
  || (match e.status with
      | some s => cfg.retryableErrors.contains (toString s)
      | none => false)
  || cfg.retryableErrors.any (fun sig => strContains e.message sig)

/-- calculateDelay from retry.ts: the fixed base delay, ignoring the attempt
number and the backoff factor. -/
def calculateDelay (_attempt : Nat) (cfg : RetryConfig) : Nat :=
  cfg.baseDelay

/-- Observable trace of one run of withRetry: the final result, how many times
the operation was invoked, and the delays slept between attempts. -/
structure RetryRun (α : Type) where
  result : Except RetryError α
  attempts : Nat
  delays : List Nat
deriving Repr, DecidableEq

/-- Sentinel for the loop body never running (maxAttempts = 0, where the
JavaScript code throws its undefined lastError). -/
def noAttemptError : RetryError :=
  { code := none, status := none, message := "no attempts" }

/-- Loop of withRetry from retry.ts.  The operation is indexed by the 1-based
attempt counter; the fuel argument is the remaining attempt budget. -/
def withRetryGo (op : Nat → Except RetryError α) (cfg : RetryConfig) :
    Nat → Nat → RetryRun α
  | _, 0 => { result := .error noAttemptError, attempts := 0, delays := [] }
  | attempt, fuel + 1 =>
    match op attempt with
    | .ok v => { result := .ok v, attempts := 1, delays := [] }
    | .error e =>
      if attempt == cfg.maxAttempts || !shouldRetry e cfg then
        { result := .error e, attempts := 1, delays := [] }
      else
        let rest := withRetryGo op cfg (attempt + 1) fuel
        { result := rest.result
          attempts := rest.attempts + 1
          delays := calculateDelay attempt cfg :: rest.delays }

/-- withRetry from retry.ts, over an attempt-indexed operation outcome. -/
def withRetry (op : Nat → Except RetryError α) (cfg : RetryConfig) : RetryRun α :=
  withRetryGo op cfg 1 cfg.maxAttempts

/-! ## Resilience wrapper (src/src/models/BaseAIProvider.ts) -/

/-- Error thrown by BaseAIProvider.generateResponse when the parsed response is
empty after trimming. -/
def emptyResponseError (providerName : String) : RetryError :=
  { code := none, status := none, message := "Empty response from " ++ providerName }

/-- Body of one withRetry attempt inside BaseAIProvider.generateResponse: the
streaming path is consulted first; when it raises and the stream fallback is
enabled, the non-streaming path is consulted in the same attempt; finally the
empty-response check is applied to whichever path produced text. -/
def attemptBody (providerName : String) (enableFallback : Bool)
    (streamResult fallbackResult : Except RetryError String) :
    Except RetryError String :=
  let pathResult : Except RetryError String :=
    match streamResult with
    | .ok s => .ok s
    | .error e => if enableFallback then fallbackResult else .error e
  match pathResult with
  | .error e => .error e
  | .ok s =>
    if (jsTrim s).length == 0 then .error (emptyResponseError providerName) else .ok s

/-- generateResponse from BaseAIProvider.ts: the attempt body wrapped in
withRetry under the provider retry configuration.  The per-attempt outcomes of
the streaming and non-streaming transports are supplied as functions of the
attempt number. -/
def generateResponse (providerName : String) (enableFallback : Bool)
    (streamResults fallbackResults : Nat → Except RetryError String)
    (cfg : RetryConfig) : RetryRun String :=
  withRetry
    (fun attempt =>
      attemptBody providerName enableFallback (streamResults attempt) (fallbackResults attempt))
    cfg

/-- config.aiRequest.enableStreamFallback from src/src/config/index.ts: true
unless the environment variable AI_STREAM_FALLBACK is the literal string
false. -/
def enableStreamFallback (envVar : Option String) : Bool :=
  envVar != some "false"

/-! ## Role catalog (src/src/services/RoleManager.ts) -/

/-- Role template entry of the RoleManager catalog. -/
structure RoleTemplate where
  id : String
  name : String
  description : String
  systemPrompt : String
  suggestedModel : Option String
  tags : List String
deriving Repr, DecidableEq

/-- RoleManager.predefinedRoles from RoleManager.ts. -/
def predefinedRoles : List RoleTemplate :=
  [{ id := "critic", name := "批判性思考者",
     description := "专门找出观点中的漏洞和不足，提出质疑和反驳",
     systemPrompt := "你是一位严格的批判性思考者。你的任务是仔细分析其他人的观点，找出其中的逻辑漏洞、事实错误、偏见或不完整的地方。请以建设性的方式提出质疑，并提供具体的反驳论据。保持客观理性，避免人身攻击。",
     suggestedModel := some "claude", tags := ["批判", "分析", "逻辑"] },
   { id := "supporter", name := "支持者",
     description := "寻找观点中的亮点和价值，提供支持和扩展",
     systemPrompt := "你是一位积极的支持者。你的任务是寻找其他人观点中的亮点、价值和可取之处，并加以支持和扩展。提供相关的证据、案例或类似观点来强化论述。同时可以提出建设性的改进建议。",
     suggestedModel := some "gemini", tags := ["支持", "扩展", "建设性"] },
   { id := "first_speaker", name := "初次发言人",
     description := "作为本次讨论的首位发言者，请提供一个结构化、全面的基础回答，作为后续讨论的起点",
     systemPrompt := "你是本次讨论的首位发言人。请针对用户提出的问题给出清晰、结构化且有深度的首轮回答，这个回答将被其他AI用作讨论的基础。注意保持条理性，并提供关键要点和结论。",
     suggestedModel := some "gemini", tags := ["首发", "引导", "总结"] },
   { id := "synthesizer", name := "综合者",
     description := "整合不同观点，寻找共同点和平衡方案",
     systemPrompt := "你是一位综合分析专家。你的任务是整合讨论中的不同观点，寻找各方的共同点，调和矛盾，提出平衡的解决方案。善于从多个角度看问题，寻求最优的折中方案。",
     suggestedModel := some "gpt", tags := ["综合", "平衡", "调和"] },
   { id := "innovator", name := "创新者",
     description := "提出新颖的观点和创意解决方案",
     systemPrompt := "你是一位富有创意的创新者。你的任务是跳出常规思维，提出新颖、独特的观点和解决方案。敢于挑战既有观念，从不同寻常的角度思考问题，提供创新的思路和想法。",
     suggestedModel := some "grok", tags := ["创新", "创意", "突破"] },
   { id := "expert", name := "领域专家",
     description := "基于专业知识提供权威观点",
     systemPrompt := "你是相关领域的专家。请基于你的专业知识和经验，提供权威、准确的分析和建议。引用相关的理论、研究或最佳实践来支持你的观点。保持专业性和客观性。",
     suggestedModel := some "claude", tags := ["专业", "权威", "准确"] },
   { id := "devil_advocate", name := "魔鬼代言人",
     description := "故意提出反对意见，激发更深入的思考",
     systemPrompt := "你扮演魔鬼代言人的角色。即使你可能同意某个观点，也要故意提出反对意见和质疑，目的是激发更深入的思考和更全面的讨论。提出尖锐但合理的反对观点。",
     suggestedModel := some "grok", tags := ["反对", "质疑", "深入思考"] }]

/-- RoleManager.getRoleById. -/
def getRoleById (id : String) : Option RoleTemplate :=
  predefinedRoles.find? (fun role => role.id == id)

/-- Participant of a discussion (types/index.ts AIParticipant, with the nested
model object flattened to its provider name).  The participant role field
stores the role template display name, exactly as createParticipant sets it. -/
structure AIParticipant where
  id : String
  name : String
  role : String
  provider : String
  systemPrompt : String
  isActive : Bool
deriving Repr, DecidableEq

/-- RoleManager.createParticipant.  The random uuid assigned in the source is
replaced by the empty string, which no verified property observes. -/
def createParticipant (roleId : String) (modelProvider : String)
    (name : Option String) : Except String AIParticipant :=
  match getRoleById roleId with
  | none => .error ("Role not found: " ++ roleId)
  | some role =>
    .ok { id := ""
          name := name.getD role.name
          role := role.name
          provider := modelProvider
          systemPrompt := role.systemPrompt
          isActive := true }

/-! ## Discussion orchestrator (src/src/services/DiscussionManager.ts) -/

/-- Message as appended to a Conversation (types/index.ts Message with the
metadata bag flattened into optional fields).  The random uuid is replaced by
the empty string. -/
structure Message where
  id : String
  role : String
  content : String
  model : Option String
  participantId : Option String
  participantName : Option String
  participantRole : Option String
  error : Option String
  isErrorMessage : Bool
deriving Repr, DecidableEq

/-- Conversation state owned by the orchestrator. -/
structure Conversation where
  id : String
  title : String
  messages : List Message
  participants : List AIParticipant
  status : String
  currentRound : Nat
  maxRounds : Nat
  tags : List String
deriving Repr, DecidableEq

/-- Requested participant of a discussion topic: a role id plus a provider
name. -/
structure ParticipantSpec where
  roleId : String
  provider : String
deriving Repr, DecidableEq

/-- DiscussionTopic from types/index.ts as consumed by startDiscussion. -/
structure DiscussionTopic where
  question : String
  context : Option String
  participants : Option (List ParticipantSpec)
deriving Repr, DecidableEq

/-- formatDiscussionPrompt from DiscussionManager.ts. -/
def formatDiscussionPrompt (topic : DiscussionTopic) : String :=
  let base := "讨论话题：" ++ topic.question
  let withContext :=
    match topic.context with
    | some c => base ++ "\n\n背景信息：" ++ c
    | none => base
  withContext ++ "\n\n请各位AI助手从自己的角色出发，对这个话题进行深入讨论。"

/-- generateTitle from DiscussionManager.ts: the question, truncated to 47
characters plus an ellipsis when longer than 50. -/
def generateTitle (question : String) : String :=
  if question.length ≤ 50 then question
  else (question.take 47) ++ "..."

/-- Participant-building loop inside startDiscussion: each requested roleId is
looked up in the catalog (unknown ids abort the whole discussion start), then
the participant is built via createParticipant with the template display name. -/
def buildParticipants : List ParticipantSpec → Except String (List AIParticipant)
  | [] => .ok []
  | p :: rest =>
    match getRoleById p.roleId with
    | none => .error ("Role template not found for roleId: " ++ p.roleId)
    | some roleTemplate =>
      match createParticipant p.roleId p.provider (some roleTemplate.name) with
      | .error e => .error e
      | .ok participant =>
        match buildParticipants rest with
        | .error e => .error e
        | .ok parts => .ok (participant :: parts)

/-- startDiscussion from DiscussionManager.ts: validation and construction of
the initial Conversation holding only the user message.  The random
conversation and message uuids are replaced by fixed placeholder strings. -/
def startDiscussion (topic : DiscussionTopic) : Except String Conversation :=
  match topic.participants with
  | none => .error "At least two participants are required to start a discussion."
  | some ps =>
    if ps.length < 2 then
      .error "At least two participants are required to start a discussion."
    else
      match buildParticipants ps with
      | .error e => .error e
      | .ok aiParticipants =>
        if aiParticipants.length < 2 then
          .error "At least two AI providers must be enabled to start a discussion."
        else
          .ok { id := "conversation"
                title := generateTitle topic.question
                messages := [{ id := "user-message"
                               role := "user"
                               content := formatDiscussionPrompt topic
                               model := none
                               participantId := none
                               participantName := none
                               participantRole := none
                               error := none
                               isErrorMessage := false }]
                participants := aiParticipants
                status := "active"
                currentRound := 0
                maxRounds := 1
                tags := ["discussion", "panel-mode"] }

/-- getDiscussionOrder from DiscussionManager.ts: the first participant bound
to provider gemini is moved to the front, everyone else keeps the declared
order; without a gemini-bound participant the list is returned unchanged. -/
def getDiscussionOrder (participants : List AIParticipant) : List AIParticipant :=
  match participants.find? (fun p => p.provider == "gemini") with
  | none => participants
  | some geminiParticipant =>
    geminiParticipant :: participants.filter (fun p => !(p.provider == "gemini"))

/-- getParticipantResponse from DiscussionManager.ts, applied to the outcome of
the race between provider.generateResponse and the timeout (ok carries the
response text, error carries the thrown error message).  The function is total:
every failure is converted into an error-flagged placeholder Message. -/
def getParticipantResponse (participant : AIParticipant)
    (callOutcome : Except String String) : Message :=
  let handled : Except String String :=
    match callOutcome with
    | .ok response =>
      if (jsTrim response).length == 0 then
        .error ("Empty response from " ++ participant.name)
      else
        .ok response
    | .error e => .error e
  match handled with
  | .ok response =>
    { id := ""
      role := "assistant"
      content := response
      model := some participant.provider
      participantId := some participant.id
      participantName := some participant.name
      participantRole := some participant.role
      error := none
      isErrorMessage := false }
  | .error errorMessage =>
    { id := ""
      role := "assistant"
      content := "[" ++ participant.name ++ (" 暂时无法响应: " ++ (errorMessage ++ "]"))
      model := some participant.provider
      participantId := some participant.id
      participantName := some participant.name
      participantRole := some participant.role
      error := some errorMessage
      isErrorMessage := true }

/-- Validity test applied by getFirstSpeakerResponse: not an error message,
non-empty after trimming, and not containing the placeholder marker. -/
def isValidFirstResponse (response : Message) : Bool :=
  !response.isErrorMessage
    && decide (0 < (jsTrim response.content).length)
    && !(strContains response.content "暂时无法响应")

/-- Observable trace of getFirstSpeakerResponse: the accepted message if any,
the number of attempts made, and the delays slept between attempts. -/
structure FirstSpeakerRun where
  result : Option Message
  attempts : Nat
  delays : List Nat
deriving Repr, DecidableEq

/-- Loop of getFirstSpeakerResponse from DiscussionManager.ts: 1-based attempt
counter, fixed budget, 3000 ms sleep between attempts. -/
def firstSpeakerGo (participant : AIParticipant)
    (outcomes : Nat → Except String String) (maxAttempts : Nat) :
    Nat → Nat → FirstSpeakerRun
  | _, 0 => { result := none, attempts := 0, delays := [] }
  | attempt, fuel + 1 =>
    let response := getParticipantResponse participant (outcomes attempt)
    if isValidFirstResponse response then
      { result := some response, attempts := 1, delays := [] }
    else
      if attempt < maxAttempts then
        let rest := firstSpeakerGo participant outcomes maxAttempts (attempt + 1) fuel
        { result := rest.result, attempts := rest.attempts + 1, delays := 3000 :: rest.delays }
      else
        { result := none, attempts := 1, delays := [] }

/-- getFirstSpeakerResponse from DiscussionManager.ts: an outer loop of 3
attempts around the participant call. -/
def getFirstSpeakerResponse (participant : AIParticipant)
    (outcomes : Nat → Except String String) : FirstSpeakerRun :=
  firstSpeakerGo participant outcomes 3 1 3

/-- Per-discussion call outcomes: attempt-indexed outcomes for the first
speaker in the discussion order, and one outcome per later position. -/
structure CallEnv where
  firstOutcomes : Nat → Except String String
  middleOutcome : Nat → Except String String

/-- Loop of runDiscussionRound over the participants after the first speaker
(1-based position index): each participant speaks once and a response flagged
as an error message is dropped silently, without stopping the loop. -/
def middleLoop (env : CallEnv) : List AIParticipant → Nat → List Message
  | [], _ => []
  | participant :: rest, i =>
    let response := getParticipantResponse participant (env.middleOutcome i)
    if !response.isErrorMessage then
      response :: middleLoop env rest (i + 1)
    else
      middleLoop env rest (i + 1)

/-- runDiscussionRound from DiscussionManager.ts: discussion order over the
active participants, first speaker with its outer retry loop (a failure throws
and aborts the round), then the remaining participants in order with isolated
failures. -/
def runDiscussionRound (env : CallEnv) (conversation : Conversation) :
    Except String Conversation :=
  let activeParticipants := conversation.participants.filter (fun p => p.isActive)
  let discussionOrder := getDiscussionOrder activeParticipants
  match discussionOrder with
  | [] => .error "No participants available for discussion"
  | firstSpeaker :: others =>
    match (getFirstSpeakerResponse firstSpeaker env.firstOutcomes).result with
    | none => .error "First speaker failed to provide a valid response"
    | some firstResponse =>
      if firstResponse.isErrorMessage then
        .error "First speaker failed to provide a valid response"
      else
        .ok { conversation with
              currentRound := 1
              messages := conversation.messages ++ firstResponse :: middleLoop env others 1 }

/-- runDiscussion from DiscussionManager.ts: runs the round and marks the
conversation completed, or marks it with error status when the round throws
(the round mutates currentRound to 1 before any throw). -/
def runDiscussion (env : CallEnv) (conversation : Conversation) : Conversation :=
  match runDiscussionRound env conversation with
  | .ok conv => { conv with status := "completed" }
  | .error _ => { conversation with currentRound := 1, status := "error" }

/-! ## Provider registry (AIProviderFactory, src/src/models/index.ts) -/

/-- Wire-format family of a provider configuration. -/
inductive ProviderFormat
  | openai
  | claude
  | gemini
  | grok
deriving Repr, DecidableEq

/-- Provider configuration entry from config/index.ts (the optional enabled
flag is modeled as a plain Bool, with an absent flag read as false exactly as
the JavaScript truthiness test does). -/
structure ProviderConfig where
  apiKey : Option String
  baseUrl : String
  model : String
  format : ProviderFormat
  enabled : Bool
deriving Repr, DecidableEq

/-- JavaScript truthiness of an optional string: present and non-empty. -/
def strTruthy : Option String → Bool
  | none => false
  | some s => !(s == "")

/-- Constructed provider adapter, recording the configuration it was built
from (one BaseAIProvider subclass per wire format; since the format type is
closed, the unreachable unsupported-format branch of the source switch has no
counterpart here). -/
structure ProviderInstance where
  name : String
  apiKey : String
  model : String
  baseUrl : String
  format : ProviderFormat
deriving Repr, DecidableEq

/-- AIProviderFactory.createProvider from models/index.ts: memo lookup first,
then the configuration checks (unknown, disabled, credential-less names fail),
then adapter construction and memoization.  The memo table is passed and
returned explicitly. -/
def createProvider (apis : List (String × ProviderConfig))
    (state : List (String × ProviderInstance)) (providerName : String) :
    Except String (ProviderInstance × List (String × ProviderInstance)) :=
  match state.lookup providerName with
  | some provider => .ok (provider, state)
  | none =>
    match apis.lookup providerName with
    | none => .error ("Unknown AI provider: " ++ providerName)
    | some providerConfig =>
      if !providerConfig.enabled then
        .error ("AI provider " ++ providerName ++ " is not enabled")
      else if !(strTruthy providerConfig.apiKey) then
        .error ("API key not configured for provider: " ++ providerName)
      else
        let provider : ProviderInstance :=
          { name := providerName
            apiKey := providerConfig.apiKey.getD ""
            model := providerConfig.model
            baseUrl := providerConfig.baseUrl
            format := providerConfig.format }
        .ok (provider, (providerName, provider) :: state)

/-- AIProviderFactory.getAvailableProviders: the names whose configuration has
the enabled flag and a truthy api key. -/
def getAvailableProviders (apis : List (String × ProviderConfig)) : List String :=
  (apis.filter (fun pc => pc.2.enabled && strTruthy pc.2.apiKey)).map (fun pc => pc.1)

/-! ## Persistence collaborator (src/src/services/DatabaseManager.ts) -/

/-- Row of the messages table (id TEXT PRIMARY KEY). -/
structure MessageRow where
  id : String
  conversationId : String
  role : String
  content : String
  model : Option String
  timestamp : String
  metadata : String
deriving Repr, DecidableEq

/-- DatabaseManager.saveMessage: INSERT OR REPLACE keyed on the id primary key,
modeled as deleting any row with the same id and inserting the new row. -/
def saveMessage (table : List MessageRow) (row : MessageRow) : List MessageRow :=
  (table.filter (fun r => !(r.id == row.id))) ++ [row]

/-! ## Concrete inputs used by counterexamples and witnesses -/

/-- Participant built by createParticipant from the first_speaker role bound to
provider claude. -/
def fsClaude : AIParticipant :=
  { id := ""
    name := "初次发言人"
    role := "初次发言人"
    provider := "claude"
    systemPrompt := "你是本次讨论的首位发言人。请针对用户提出的问题给出清晰、结构化且有深度的首轮回答，这个回答将被其他AI用作讨论的基础。注意保持条理性，并提供关键要点和结论。"
    isActive := true }

/-- Participant built by createParticipant from the synthesizer role bound to
provider gemini. -/
def synGemini : AIParticipant :=
  { id := ""
    name := "综合者"
    role := "综合者"
    provider := "gemini"
    systemPrompt := "你是一位综合分析专家。你的任务是整合讨论中的不同观点，寻找各方的共同点，调和矛盾，提出平衡的解决方案。善于从多个角度看问题，寻求最优的折中方案。"
    isActive := true }

/-- Discussion request with two known roles and no first_speaker at all. -/
def topicNoFS : DiscussionTopic :=
  { question := "远程工作是否更高效？"
    context := none
    participants := some [{ roleId := "critic", provider := "claude" },
                          { roleId := "supporter", provider := "gemini" }] }

/-- Discussion request with exactly one first_speaker and one critic. -/
def topicW : DiscussionTopic :=
  { question := "远程工作是否更高效？"
    context := none
    participants := some [{ roleId := "first_speaker", provider := "gemini" },
                          { roleId := "critic", provider := "claude" }] }

/-! ## C1 -/

/-- C1 counterexample: for the participant list built from a first_speaker role
on claude followed by a synthesizer role on gemini, getDiscussionOrder puts the
synthesizer-role participant first and the first_speaker-role participant last,
so the declared first_speaker is not at position 0 and the synthesizer is not
at the final position. -/
theorem getDiscussionOrder_cex :
    buildParticipants [{ roleId := "first_speaker", provider := "claude" },
                       { roleId := "synthesizer", provider := "gemini" }]
      = .ok [fsClaude, synGemini]
    ∧ getDiscussionOrder [fsClaude, synGemini] = [synGemini, fsClaude]
    ∧ fsClaude.role = "初次发言人"
    ∧ synGemini.role = "综合者"
    ∧ ¬ ((getDiscussionOrder [fsClaude, synGemini]).head? = some fsClaude) := by
  decide

/-- C1 amended: getDiscussionOrder places the first participant whose bound
provider is gemini at position 0 followed by every non-gemini participant in
declared order, and returns the list unchanged when no gemini-bound participant
exists; role ids such as first_speaker and synthesizer play no part in the
ordering. -/
theorem getDiscussionOrder_gemini_first (participants : List AIParticipant) :
    (∀ g, participants.find? (fun p => p.provider == "gemini") = some g →
      getDiscussionOrder participants
        = g :: participants.filter (fun p => !(p.provider == "gemini")))
    ∧ (participants.find? (fun p => p.provider == "gemini") = none →
      getDiscussionOrder participants = participants) := by
  constructor
  · intro g hg
    simp [getDiscussionOrder, hg]
  · intro hg
    simp [getDiscussionOrder, hg]

/-- C1 witness: the amended ordering law evaluated on the concrete two-element
participant list. -/
theorem getDiscussionOrder_gemini_first_witness :
    getDiscussionOrder [fsClaude, synGemini]
      = synGemini :: ([fsClaude, synGemini].filter (fun p => !(p.provider == "gemini"))) :=
  (getDiscussionOrder_gemini_first [fsClaude, synGemini]).1 synGemini (by decide)

/-! ## C2 -/

lemma buildParticipants_length :
    ∀ ps parts, buildParticipants ps = .ok parts → parts.length = ps.length := by
  intro ps
  induction ps with
  | nil =>
    intro parts h
    simp [buildParticipants] at h
    simp [← h]
  | cons p rest ih =>
    intro parts h
    cases hrole : getRoleById p.roleId with
    | none => simp [buildParticipants, hrole] at h
    | some roleTemplate =>
      cases hrest : buildParticipants rest with
      | error e => simp [buildParticipants, hrole, createParticipant, hrest] at h
      | ok parts2 =>
        simp [buildParticipants, hrole, createParticipant, hrest] at h
        simp [← h, ih parts2 hrest]

lemma buildParticipants_isOk_iff (ps : List ParticipantSpec) :
    (buildParticipants ps).isOk = true
      ↔ ∀ p ∈ ps, (getRoleById p.roleId).isSome = true := by
  induction ps with
  | nil => simp [buildParticipants, Except.isOk, Except.toBool]
  | cons p rest ih =>
    cases hrole : getRoleById p.roleId with
    | none =>
      constructor
      · intro h
        simp [buildParticipants, hrole, Except.isOk, Except.toBool] at h
      · intro h
        have hp := h p (by simp)
        simp [hrole] at hp
    | some roleTemplate =>
      cases hrest : buildParticipants rest with
      | error e =>
        constructor
        · intro h
          simp [buildParticipants, hrole, createParticipant, hrest,
            Except.isOk, Except.toBool] at h
        · intro h
          have hr : (buildParticipants rest).isOk = true :=
            ih.2 (fun q hq => h q (by simp [hq]))
          simp [hrest, Except.isOk, Except.toBool] at hr
      | ok parts =>
        constructor
        · intro _ q hq
          rcases List.mem_cons.1 hq with hq | hq
          · subst hq
            simp [hrole]
          · exact ih.1 (by simp [hrest, Except.isOk, Except.toBool]) q hq
        · intro _
          simp [buildParticipants, hrole, createParticipant, hrest,
            Except.isOk, Except.toBool]

/-- C2 counterexample: a request with two participants and no first_speaker
role at all is accepted by startDiscussion, so the discussion starts without
the claimed exactly-one-first_speaker requirement. -/
theorem startDiscussion_cex :
    (startDiscussion topicNoFS).isOk = true
    ∧ ((topicNoFS.participants.getD []).filter
        (fun p => p.roleId == "first_speaker")).length = 0 := by
  decide

/-- C2 amended: startDiscussion rejects iff the request has no participant
list, fewer than two participants, or some requested roleId without a catalog
template; it performs no first_speaker or synthesizer cardinality check; and an
accepted request yields a fresh active conversation holding only the user
message, so no stage has run and no assistant message exists. -/
theorem startDiscussion_ok_iff (topic : DiscussionTopic) :
    ((startDiscussion topic).isOk = true ↔
      ∃ ps, topic.participants = some ps ∧ 2 ≤ ps.length
        ∧ ∀ p ∈ ps, (getRoleById p.roleId).isSome = true)
    ∧ (∀ conv, startDiscussion topic = .ok conv →
        conv.messages.map (fun m => m.role) = ["user"] ∧ conv.status = "active") := by
  constructor
  · constructor
    · intro hok
      cases htp : topic.participants with
      | none => simp [startDiscussion, htp, Except.isOk, Except.toBool] at hok
      | some ps =>
        refine ⟨ps, rfl, ?_, ?_⟩
        · by_contra hlen2
          have hlt : ps.length < 2 := by omega
          simp [startDiscussion, htp, hlt, Except.isOk, Except.toBool] at hok
        · apply (buildParticipants_isOk_iff ps).1
          by_cases hlen : ps.length < 2
          · simp [startDiscussion, htp, hlen, Except.isOk, Except.toBool] at hok
          · cases hbp : buildParticipants ps with
            | error e =>
              simp [startDiscussion, htp, hlen, hbp, Except.isOk, Except.toBool] at hok
            | ok parts => simp [hbp, Except.isOk, Except.toBool]
    · rintro ⟨ps, htp, hlen, hall⟩
      have hbpok := (buildParticipants_isOk_iff ps).2 hall
      cases hbp : buildParticipants ps with
      | error e => simp [hbp, Except.isOk, Except.toBool] at hbpok
      | ok parts =>
        have hplen := buildParticipants_length ps parts hbp
        have hlt : ¬ ps.length < 2 := by omega
        have h2 : ¬ parts.length < 2 := by omega
        simp [startDiscussion, htp, hlt, hbp, h2, Except.isOk, Except.toBool]
  · intro conv hconv
    cases htp : topic.participants with
    | none => simp [startDiscussion, htp] at hconv
    | some ps =>
      by_cases hlen : ps.length < 2
      · simp [startDiscussion, htp, hlen] at hconv
      · cases hbp : buildParticipants ps with
        | error e => simp [startDiscussion, htp, hlen, hbp] at hconv
        | ok parts =>
          have hplen := buildParticipants_length ps parts hbp
          have h2 : ¬ parts.length < 2 := by omega
          simp [startDiscussion, htp, hlen, hbp, h2] at hconv
          simp [← hconv]

/-- C2 witness: the amended acceptance law applied to the concrete request with
one first_speaker and one critic. -/
theorem startDiscussion_ok_iff_witness :
    (startDiscussion topicW).isOk = true :=
  (startDiscussion_ok_iff topicW).1.mpr
    ⟨[{ roleId := "first_speaker", provider := "gemini" },
      { roleId := "critic", provider := "claude" }], rfl, by decide, by decide⟩

/-! ## C6: withRetry lemmas and theorem -/

lemma withRetryGo_ok (op : Nat → Except RetryError α) (cfg : RetryConfig)
    (attempt f : Nat) (v : α) (hop : op attempt = Except.ok v) :
    withRetryGo op cfg attempt (f + 1)
      = { result := Except.ok v, attempts := 1, delays := [] } := by
  simp [withRetryGo, hop]

lemma withRetryGo_stop (op : Nat → Except RetryError α) (cfg : RetryConfig)
    (attempt f : Nat) (e : RetryError) (hop : op attempt = Except.error e)
    (hc : (attempt == cfg.maxAttempts || !shouldRetry e cfg) = true) :
    withRetryGo op cfg attempt (f + 1)
      = { result := Except.error e, attempts := 1, delays := [] } := by
  simp [withRetryGo, hop, hc]

lemma withRetryGo_step (op : Nat → Except RetryError α) (cfg : RetryConfig)
    (attempt f : Nat) (e : RetryError) (hop : op attempt = Except.error e)
    (hne : (attempt == cfg.maxAttempts) = false) (hr : shouldRetry e cfg = true) :
    withRetryGo op cfg attempt (f + 1)
      = { result := (withRetryGo op cfg (attempt + 1) f).result,
          attempts := (withRetryGo op cfg (attempt + 1) f).attempts + 1,
          delays := cfg.baseDelay :: (withRetryGo op cfg (attempt + 1) f).delays } := by
  simp [withRetryGo, hop, hne, hr, calculateDelay]

lemma withRetryGo_attempts_le (op : Nat → Except RetryError α) (cfg : RetryConfig) :
    ∀ fuel attempt, (withRetryGo op cfg attempt fuel).attempts ≤ fuel := by
  intro fuel
  induction fuel with
  | zero => intro attempt; simp [withRetryGo]
  | succ f ih =>
    intro attempt
    cases hop : op attempt with
    | ok v =>
      rw [withRetryGo_ok op cfg attempt f v hop]
      show 1 ≤ f + 1
      omega
    | error e =>
      cases hb : (attempt == cfg.maxAttempts) with
      | true =>
        rw [withRetryGo_stop op cfg attempt f e hop (by simp [hb])]
        show 1 ≤ f + 1
        omega
      | false =>
        cases hr : shouldRetry e cfg with
        | false =>
          rw [withRetryGo_stop op cfg attempt f e hop (by simp [hb, hr])]
          show 1 ≤ f + 1
          omega
        | true =>
          rw [withRetryGo_step op cfg attempt f e hop hb hr]
          show (withRetryGo op cfg (attempt + 1) f).attempts + 1 ≤ f + 1
          have := ih (attempt + 1)
          omega

lemma withRetryGo_delays_base (op : Nat → Except RetryError α) (cfg : RetryConfig) :
    ∀ fuel attempt d, d ∈ (withRetryGo op cfg attempt fuel).delays → d = cfg.baseDelay := by
  intro fuel
  induction fuel with
  | zero => intro attempt d hd; simp [withRetryGo] at hd
  | succ f ih =>
    intro attempt d hd
    cases hop : op attempt with
    | ok v =>
      rw [withRetryGo_ok op cfg attempt f v hop] at hd
      simp at hd
    | error e =>
      cases hb : (attempt == cfg.maxAttempts) with
      | true =>
        rw [withRetryGo_stop op cfg attempt f e hop (by simp [hb])] at hd
        simp at hd
      | false =>
        cases hr : shouldRetry e cfg with
        | false =>
          rw [withRetryGo_stop op cfg attempt f e hop (by simp [hb, hr])] at hd
          simp at hd
        | true =>
          rw [withRetryGo_step op cfg attempt f e hop hb hr] at hd
          rcases List.mem_cons.1 hd with hd | hd
          · exact hd
          · exact ih (attempt + 1) d hd

lemma withRetryGo_attempts_pos (op : Nat → Except RetryError α) (cfg : RetryConfig) :
    ∀ fuel attempt, 1 ≤ fuel → 1 ≤ (withRetryGo op cfg attempt fuel).attempts := by
  intro fuel attempt hfuel
  obtain ⟨f, hf⟩ : ∃ f, fuel = f + 1 := ⟨fuel - 1, by omega⟩
  subst hf
  cases hop : op attempt with
  | ok v =>
    rw [withRetryGo_ok op cfg attempt f v hop]
  | error e =>
    cases hb : (attempt == cfg.maxAttempts) with
    | true => rw [withRetryGo_stop op cfg attempt f e hop (by simp [hb])]
    | false =>
      cases hr : shouldRetry e cfg with
      | false => rw [withRetryGo_stop op cfg attempt f e hop (by simp [hb, hr])]
      | true =>
        rw [withRetryGo_step op cfg attempt f e hop hb hr]
        show 1 ≤ (withRetryGo op cfg (attempt + 1) f).attempts + 1
        omega

lemma withRetryGo_last_error (op : Nat → Except RetryError α) (cfg : RetryConfig)
    (hall : ∀ a, 1 ≤ a → a ≤ cfg.maxAttempts →
      ∃ e, op a = Except.error e ∧ shouldRetry e cfg = true) :
    ∀ fuel attempt, 1 ≤ attempt → attempt + fuel = cfg.maxAttempts →
      ∀ e, op cfg.maxAttempts = Except.error e →
        (withRetryGo op cfg attempt (fuel + 1)).result = Except.error e := by
  intro fuel
  induction fuel with
  | zero =>
    intro attempt h1 hsum e he
    have hattempt : attempt = cfg.maxAttempts := by omega
    subst hattempt
    rw [withRetryGo_stop op cfg cfg.maxAttempts 0 e he (by simp)]
  | succ f ih =>
    intro attempt h1 hsum e he
    obtain ⟨e1, he1, hr1⟩ := hall attempt h1 (by omega)
    have hne : (attempt == cfg.maxAttempts) = false := by
      simp only [beq_eq_false_iff_ne, ne_eq]
      omega
    rw [withRetryGo_step op cfg attempt (f + 1) e1 he1 hne hr1]
    show (withRetryGo op cfg (attempt + 1) (f + 1)).result = Except.error e
    exact ih (attempt + 1) (by omega) (by omega) e he

/-- C6: withRetry invokes the operation at most maxAttempts times (default 5);
every delay it sleeps equals the fixed baseDelay (default 2000 ms, no
exponential growth); a failed first attempt with a non-retryable error
propagates immediately after a single invocation; a retryable failure with
budget remaining is followed by at least one more invocation; when every
attempt fails retryably the error of the final attempt is what propagates; and
HTTP statuses 429, 500, 502, 503, 504 are retryable under the default
configuration. -/
theorem withRetry_spec (op : Nat → Except RetryError α) (cfg : RetryConfig)
    (hmax : 1 ≤ cfg.maxAttempts) :
    (withRetry op cfg).attempts ≤ cfg.maxAttempts
    ∧ (∀ d, d ∈ (withRetry op cfg).delays → d = cfg.baseDelay)
    ∧ (∀ a, calculateDelay a cfg = cfg.baseDelay)
    ∧ (∀ e, op 1 = Except.error e → shouldRetry e cfg = false →
        withRetry op cfg
          = { result := Except.error e, attempts := 1, delays := [] })
    ∧ (∀ e, op 1 = Except.error e → shouldRetry e cfg = true → 2 ≤ cfg.maxAttempts →
        2 ≤ (withRetry op cfg).attempts)
    ∧ ((∀ a, 1 ≤ a → a ≤ cfg.maxAttempts →
          ∃ e, op a = Except.error e ∧ shouldRetry e cfg = true) →
        ∀ e, op cfg.maxAttempts = Except.error e →
          (withRetry op cfg).result = Except.error e)
    ∧ DEFAULT_RETRY_CONFIG.maxAttempts = 5
    ∧ DEFAULT_RETRY_CONFIG.baseDelay = 2000
    ∧ (∀ s, s ∈ [429, 500, 502, 503, 504] →
        shouldRetry { code := none, status := some s, message := "" }
          DEFAULT_RETRY_CONFIG = true) := by
  refine ⟨withRetryGo_attempts_le op cfg cfg.maxAttempts 1,
    fun d hd => withRetryGo_delays_base op cfg cfg.maxAttempts 1 d hd,
    fun a => rfl, ?_, ?_, ?_, rfl, rfl, by decide⟩
  · intro e hop hsr
    obtain ⟨m, hm⟩ : ∃ m, cfg.maxAttempts = m + 1 := ⟨cfg.maxAttempts - 1, by omega⟩
    unfold withRetry
    rw [hm]
    rw [withRetryGo_stop op cfg 1 m e hop (by simp [hsr])]
  · intro e hop hsr h2
    obtain ⟨m, hm⟩ : ∃ m, cfg.maxAttempts = m + 2 := ⟨cfg.maxAttempts - 2, by omega⟩
    have hne : (1 == cfg.maxAttempts) = false := by
      simp only [beq_eq_false_iff_ne, ne_eq]
      omega
    unfold withRetry
    rw [hm]
    rw [withRetryGo_step op cfg 1 (m + 1) e hop hne hsr]
    show 2 ≤ (withRetryGo op cfg (1 + 1) (m + 1)).attempts + 1
    have := withRetryGo_attempts_pos op cfg (m + 1) (1 + 1) (by omega)
    omega
  · intro hall e he
    obtain ⟨m, hm⟩ : ∃ m, cfg.maxAttempts = m + 1 := ⟨cfg.maxAttempts - 1, by omega⟩
    unfold withRetry
    rw [hm]
    exact withRetryGo_last_error op cfg hall m 1 (by omega) (by omega) e he

/-- Concrete always-retryable network error used by witnesses. -/
def netErr : RetryError :=
  { code := some "ECONNRESET", status := none, message := "socket hang up" }

/-- Concrete non-retryable error used by witnesses. -/
def fatalErr : RetryError :=
  { code := some "BAD_REQUEST", status := some 400, message := "invalid payload" }

/-- C6 witness: the retry law evaluated on a concrete operation that fails
fatally on its first attempt under the default configuration. -/
theorem withRetry_spec_witness :
    (withRetry (fun _ => Except.error fatalErr : Nat → Except RetryError String)
        DEFAULT_RETRY_CONFIG).attempts ≤ DEFAULT_RETRY_CONFIG.maxAttempts
    ∧ withRetry (fun _ => Except.error fatalErr : Nat → Except RetryError String)
        DEFAULT_RETRY_CONFIG
        = { result := Except.error fatalErr, attempts := 1, delays := [] } :=
  ⟨(withRetry_spec (fun _ => Except.error fatalErr) DEFAULT_RETRY_CONFIG (by decide)).1,
   (withRetry_spec (fun _ => Except.error fatalErr) DEFAULT_RETRY_CONFIG
      (by decide)).2.2.2.1 fatalErr rfl (by decide)⟩

/-! ## C3 -/

/-- C3 counterexample: with the default retry configuration and provider name
gemini, an attempt whose provider call completes but yields empty trimmed text
makes generateResponse stop after exactly one attempt and propagate the
empty-response error, even though four more attempts remained in the budget. -/
theorem emptyResponse_not_retried_cex :
    (generateResponse "gemini" true (fun _ => Except.ok "") (fun _ => Except.ok "")
        DEFAULT_RETRY_CONFIG).attempts = 1
    ∧ (generateResponse "gemini" true (fun _ => Except.ok "") (fun _ => Except.ok "")
        DEFAULT_RETRY_CONFIG).result = Except.error (emptyResponseError "gemini")
    ∧ DEFAULT_RETRY_CONFIG.maxAttempts = 5 := by
  decide

/-- C3 amended: inside the resilience wrapper, an attempt that completes the
provider call but yields empty trimmed text raises the empty-response error,
and whenever that error does not match the retryable signature set — as is the
case for ordinary provider names under the default configuration — the wrapper
propagates it immediately after that single attempt instead of retrying;
empty answers are retried only by the Stage 1 outer loop. -/
theorem emptyResponse_fails_fast (providerName : String) (fb : Bool)
    (streams fallbacks : Nat → Except RetryError String) (cfg : RetryConfig)
    (hempty : attemptBody providerName fb (streams 1) (fallbacks 1)
      = Except.error (emptyResponseError providerName))
    (hnr : shouldRetry (emptyResponseError providerName) cfg = false)
    (hmax : 1 ≤ cfg.maxAttempts) :
    generateResponse providerName fb streams fallbacks cfg
      = { result := Except.error (emptyResponseError providerName),
          attempts := 1, delays := [] } := by
  obtain ⟨m, hm⟩ : ∃ m, cfg.maxAttempts = m + 1 := ⟨cfg.maxAttempts - 1, by omega⟩
  unfold generateResponse withRetry
  rw [hm]
  exact withRetryGo_stop _ cfg 1 m _ hempty (by simp [hnr])

/-- C3 witness: the fail-fast law evaluated at provider gemini with an
always-empty streaming result under the default configuration. -/
theorem emptyResponse_fails_fast_witness :
    generateResponse "gemini" true (fun _ => Except.ok " ") (fun _ => Except.ok " ")
        DEFAULT_RETRY_CONFIG
      = { result := Except.error (emptyResponseError "gemini"),
          attempts := 1, delays := [] } :=
  emptyResponse_fails_fast "gemini" true (fun _ => Except.ok " ") (fun _ => Except.ok " ")
    DEFAULT_RETRY_CONFIG (by decide) (by decide) (by decide)

/-! ## C7 -/

/-- C7: within a single retry attempt the streaming path is consulted first —
a successful non-empty streaming result is returned without touching the
fallback; when the streaming path raises and the stream fallback is enabled
(which is the configuration default), the non-streaming path is attempted in
the same attempt and its non-empty result makes the attempt succeed; when both
raise the attempt fails with the fallback error, and with fallback disabled the
streaming error propagates directly. -/
theorem stream_fallback_same_attempt (name : String) (s : String) (e e2 : RetryError)
    (fb : Except RetryError String) :
    enableStreamFallback none = true
    ∧ ((jsTrim s).length ≠ 0 → attemptBody name true (Except.ok s) fb = Except.ok s)
    ∧ ((jsTrim s).length ≠ 0 →
        attemptBody name true (Except.error e) (Except.ok s) = Except.ok s)
    ∧ attemptBody name true (Except.error e) (Except.error e2) = Except.error e2
    ∧ attemptBody name false (Except.error e) fb = Except.error e := by
  refine ⟨rfl, ?_, ?_, rfl, ?_⟩
  · intro hs
    have : ((jsTrim s).length == 0) = false := by
      simp only [beq_eq_false_iff_ne, ne_eq]
      exact hs
    simp [attemptBody, this]
  · intro hs
    have : ((jsTrim s).length == 0) = false := by
      simp only [beq_eq_false_iff_ne, ne_eq]
      exact hs
    simp [attemptBody, this]
  · simp [attemptBody]

/-- C7 witness: streaming-first and same-attempt fallback evaluated on concrete
results. -/
theorem stream_fallback_same_attempt_witness :
    attemptBody "gemini" true (Except.ok "流式回答") (Except.ok "备用回答")
      = Except.ok "流式回答"
    ∧ attemptBody "gemini" true (Except.error netErr) (Except.ok "备用回答")
      = Except.ok "备用回答" :=
  ⟨(stream_fallback_same_attempt "gemini" "流式回答" netErr netErr
      (Except.ok "备用回答")).2.1 (by decide),
   (stream_fallback_same_attempt "gemini" "备用回答" netErr netErr
      (Except.ok "备用回答")).2.2.1 (by decide)⟩

/-! ## C4: Stage 1 outer retry loop -/

lemma firstSpeakerGo_valid_step (p : AIParticipant) (o : Nat → Except String String)
    (maxA attempt f : Nat)
    (hval : isValidFirstResponse (getParticipantResponse p (o attempt)) = true) :
    firstSpeakerGo p o maxA attempt (f + 1)
      = { result := some (getParticipantResponse p (o attempt)), attempts := 1, delays := [] } := by
  simp [firstSpeakerGo, hval]

lemma firstSpeakerGo_invalid_step (p : AIParticipant) (o : Nat → Except String String)
    (maxA attempt f : Nat)
    (hinv : isValidFirstResponse (getParticipantResponse p (o attempt)) = false)
    (hlt : attempt < maxA) :
    firstSpeakerGo p o maxA attempt (f + 1)
      = { result := (firstSpeakerGo p o maxA (attempt + 1) f).result,
          attempts := (firstSpeakerGo p o maxA (attempt + 1) f).attempts + 1,
          delays := 3000 :: (firstSpeakerGo p o maxA (attempt + 1) f).delays } := by
  simp [firstSpeakerGo, hinv, hlt]

lemma firstSpeakerGo_invalid_last (p : AIParticipant) (o : Nat → Except String String)
    (maxA attempt f : Nat)
    (hinv : isValidFirstResponse (getParticipantResponse p (o attempt)) = false)
    (hge : ¬ attempt < maxA) :
    firstSpeakerGo p o maxA attempt (f + 1)
      = { result := none, attempts := 1, delays := [] } := by
  simp [firstSpeakerGo, hinv, hge]

/-- C4: when every one of the three outer attempts of the first speaker yields
an invalid response (empty, error-flagged, or containing the error
placeholder), getFirstSpeakerResponse makes exactly 3 attempts separated by
fixed 3000 ms waits and returns no message, and the whole discussion ends with
status error and not a single assistant message appended — in particular no
Stage 2 or Stage 3 message exists. -/
theorem firstSpeaker_outer_retry (env : CallEnv) (conversation : Conversation)
    (p : AIParticipant) (others : List AIParticipant)
    (horder : getDiscussionOrder (conversation.participants.filter (fun q => q.isActive))
      = p :: others)
    (hfail : ∀ a, isValidFirstResponse (getParticipantResponse p (env.firstOutcomes a)) = false) :
    getFirstSpeakerResponse p env.firstOutcomes
      = { result := none, attempts := 3, delays := [3000, 3000] }
    ∧ (runDiscussion env conversation).status = "error"
    ∧ (runDiscussion env conversation).messages = conversation.messages := by
  have h3 : firstSpeakerGo p env.firstOutcomes 3 3 1
      = { result := none, attempts := 1, delays := [] } :=
    firstSpeakerGo_invalid_last p env.firstOutcomes 3 3 0 (hfail 3) (by omega)
  have h2 : firstSpeakerGo p env.firstOutcomes 3 2 2
      = { result := none, attempts := 2, delays := [3000] } := by
    rw [firstSpeakerGo_invalid_step p env.firstOutcomes 3 2 1 (hfail 2) (by omega)]
    rw [show (2 : Nat) + 1 = 3 from rfl, h3]
  have h1 : getFirstSpeakerResponse p env.firstOutcomes
      = { result := none, attempts := 3, delays := [3000, 3000] } := by
    unfold getFirstSpeakerResponse
    rw [firstSpeakerGo_invalid_step p env.firstOutcomes 3 1 2 (hfail 1) (by omega)]
    rw [show (1 : Nat) + 1 = 2 from rfl, h2]
  have hround : runDiscussionRound env conversation
      = Except.error "First speaker failed to provide a valid response" := by
    unfold runDiscussionRound
    simp only [horder, h1]
  refine ⟨h1, ?_, ?_⟩
  · unfold runDiscussion
    rw [hround]
  · unfold runDiscussion
    rw [hround]

/-- A user message used by concrete conversations. -/
def userMsgW : Message :=
  { id := "user-message"
    role := "user"
    content := "讨论话题：远程工作是否更高效？\n\n请各位AI助手从自己的角色出发，对这个话题进行深入讨论。"
    model := none
    participantId := none
    participantName := none
    participantRole := none
    error := none
    isErrorMessage := false }

/-- Concrete conversation holding the first_speaker-on-claude and
synthesizer-on-gemini participants. -/
def convW : Conversation :=
  { id := "conversation"
    title := "远程工作是否更高效？"
    messages := [userMsgW]
    participants := [fsClaude, synGemini]
    status := "active"
    currentRound := 0
    maxRounds := 1
    tags := ["discussion", "panel-mode"] }

/-- Call environment in which every provider call fails. -/
def envFail : CallEnv :=
  { firstOutcomes := fun _ => Except.error "boom"
    middleOutcome := fun _ => Except.error "boom" }

lemma errorResponseInvalid (p : AIParticipant) (e : String) :
    isValidFirstResponse (getParticipantResponse p (Except.error e)) = false := rfl

/-- C4 witness: the outer-retry law evaluated on the concrete conversation with
an always-failing provider. -/
theorem firstSpeaker_outer_retry_witness :
    getFirstSpeakerResponse synGemini envFail.firstOutcomes
      = { result := none, attempts := 3, delays := [3000, 3000] }
    ∧ (runDiscussion envFail convW).status = "error"
    ∧ (runDiscussion envFail convW).messages = convW.messages :=
  firstSpeaker_outer_retry envFail convW synGemini [fsClaude] (by decide)
    (fun _ => errorResponseInvalid synGemini "boom")

/-! ## C5: Stage 2 failure isolation -/

lemma firstSpeakerGo_result_valid (p : AIParticipant) (o : Nat → Except String String)
    (maxA : Nat) :
    ∀ fuel attempt m, (firstSpeakerGo p o maxA attempt fuel).result = some m →
      isValidFirstResponse m = true := by
  intro fuel
  induction fuel with
  | zero => intro attempt m h; simp [firstSpeakerGo] at h
  | succ f ih =>
    intro attempt m h
    cases hv : isValidFirstResponse (getParticipantResponse p (o attempt)) with
    | true =>
      rw [firstSpeakerGo_valid_step p o maxA attempt f hv] at h
      simp only [Option.some.injEq] at h
      rw [← h]
      exact hv
    | false =>
      by_cases hlt : attempt < maxA
      · rw [firstSpeakerGo_invalid_step p o maxA attempt f hv hlt] at h
        exact ih (attempt + 1) m h
      · rw [firstSpeakerGo_invalid_last p o maxA attempt f hv hlt] at h
        simp at h

lemma middleLoop_all_ok (env : CallEnv) :
    ∀ l i m, m ∈ middleLoop env l i → m.isErrorMessage = false := by
  intro l
  induction l with
  | nil => intro i m h; simp [middleLoop] at h
  | cons q rest ih =>
    intro i m h
    cases he : (getParticipantResponse q (env.middleOutcome i)).isErrorMessage with
    | true =>
      simp only [middleLoop, he, Bool.not_true, Bool.false_eq_true, if_false] at h
      exact ih (i + 1) m h
    | false =>
      simp only [middleLoop, he, Bool.not_false, if_true, List.mem_cons] at h
      rcases h with h | h
      · rw [h]
        exact he
      · exact ih (i + 1) m h

/-- C5: with a first speaker that eventually produced a valid message, the
discussion always completes: the transcript is the prior messages, then the
first speaker's message, then exactly the successful later participants'
messages in their dispatch order; a later participant whose response is
error-flagged is dropped silently without stopping the loop; every appended
later message is a non-error message; and the completed conversation always
contains the first speaker's message. -/
theorem middle_failure_isolated (env : CallEnv) (conversation : Conversation)
    (p : AIParticipant) (others : List AIParticipant) (m : Message)
    (horder : getDiscussionOrder (conversation.participants.filter (fun q => q.isActive))
      = p :: others)
    (hfirst : (getFirstSpeakerResponse p env.firstOutcomes).result = some m) :
    (runDiscussion env conversation).status = "completed"
    ∧ (runDiscussion env conversation).messages
        = conversation.messages ++ m :: middleLoop env others 1
    ∧ m ∈ (runDiscussion env conversation).messages
    ∧ (∀ q rest i, (getParticipantResponse q (env.middleOutcome i)).isErrorMessage = true →
        middleLoop env (q :: rest) i = middleLoop env rest (i + 1))
    ∧ (∀ msg, msg ∈ middleLoop env others 1 → msg.isErrorMessage = false) := by
  have hvalid : isValidFirstResponse m = true :=
    firstSpeakerGo_result_valid p env.firstOutcomes 3 3 1 m hfirst
  have hnoterr : m.isErrorMessage = false := by
    have h := hvalid
    unfold isValidFirstResponse at h
    simp only [Bool.and_eq_true, Bool.not_eq_true'] at h
    exact h.1.1
  have hround : runDiscussionRound env conversation
      = Except.ok { conversation with
          currentRound := 1
          messages := conversation.messages ++ m :: middleLoop env others 1 } := by
    unfold runDiscussionRound
    simp only [horder, hfirst, hnoterr, Bool.false_eq_true, if_false]
  refine ⟨?_, ?_, ?_, ?_, fun msg h => middleLoop_all_ok env others 1 msg h⟩
  · unfold runDiscussion
    rw [hround]
  · unfold runDiscussion
    rw [hround]
  · unfold runDiscussion
    rw [hround]
    show m ∈ conversation.messages ++ m :: middleLoop env others 1
    exact List.mem_append.2 (Or.inr (List.mem_cons_self m _))
  · intro q rest i hq
    simp [middleLoop, hq]

/-- Call environment in which the first speaker answers and every later
participant call fails. -/
def envMixed : CallEnv :=
  { firstOutcomes := fun _ => Except.ok "基础回答"
    middleOutcome := fun _ => Except.error "boom" }

/-- The first speaker message produced by synGemini under envMixed. -/
def firstMsgW : Message :=
  { id := ""
    role := "assistant"
    content := "基础回答"
    model := some "gemini"
    participantId := some ""
    participantName := some "综合者"
    participantRole := some "综合者"
    error := none
    isErrorMessage := false }

/-- C5 witness: failure isolation evaluated on the concrete conversation where
the single later participant always errors. -/
theorem middle_failure_isolated_witness :
    (runDiscussion envMixed convW).status = "completed"
    ∧ (runDiscussion envMixed convW).messages
        = convW.messages ++ firstMsgW :: middleLoop envMixed [fsClaude] 1
    ∧ firstMsgW ∈ (runDiscussion envMixed convW).messages :=
  ⟨(middle_failure_isolated envMixed convW synGemini [fsClaude] firstMsgW
      (by decide) (by decide)).1,
   (middle_failure_isolated envMixed convW synGemini [fsClaude] firstMsgW
      (by decide) (by decide)).2.1,
   (middle_failure_isolated envMixed convW synGemini [fsClaude] firstMsgW
      (by decide) (by decide)).2.2.1⟩

/-! ## C8: provider registry -/

/-- C8: resolving a provider name that is unknown, disabled, or without a
credential fails with an error (never retried — createProvider raises
synchronously); a configured, enabled name with a credential succeeds; the
returned instance is memoized, so calling again with the same name in the
resulting state returns the identical instance and state; and
getAvailableProviders lists exactly the configured names whose entry has the
enabled flag and a present api key. -/
theorem providerFactory_spec (apis : List (String × ProviderConfig))
    (state : List (String × ProviderInstance)) (name : String) :
    (state.lookup name = none → apis.lookup name = none →
      (createProvider apis state name).isOk = false)
    ∧ (∀ c, state.lookup name = none → apis.lookup name = some c → c.enabled = false →
        (createProvider apis state name).isOk = false)
    ∧ (∀ c, state.lookup name = none → apis.lookup name = some c →
        strTruthy c.apiKey = false → (createProvider apis state name).isOk = false)
    ∧ (∀ c, state.lookup name = none → apis.lookup name = some c → c.enabled = true →
        strTruthy c.apiKey = true → (createProvider apis state name).isOk = true)
    ∧ (∀ p s2, createProvider apis state name = Except.ok (p, s2) →
        createProvider apis s2 name = Except.ok (p, s2))
    ∧ (∀ n, n ∈ getAvailableProviders apis ↔
        ∃ c, (n, c) ∈ apis ∧ c.enabled = true ∧ strTruthy c.apiKey = true) := by
  refine ⟨?_, ?_, ?_, ?_, ?_, ?_⟩
  · intro hs ha
    simp [createProvider, hs, ha, Except.isOk, Except.toBool]
  · intro c hs ha hen
    simp [createProvider, hs, ha, hen, Except.isOk, Except.toBool]
  · intro c hs ha hkey
    by_cases hen : c.enabled = true
    · simp [createProvider, hs, ha, hen, hkey, Except.isOk, Except.toBool]
    · have hen2 : c.enabled = false := by
        cases h : c.enabled
        · rfl
        · exact absurd h hen
      simp [createProvider, hs, ha, hen2, Except.isOk, Except.toBool]
  · intro c hs ha hen hkey
    simp [createProvider, hs, ha, hen, hkey, Except.isOk, Except.toBool]
  · intro p s2 h
    cases hs : state.lookup name with
    | some q =>
      rw [createProvider, hs] at h
      simp only [Except.ok.injEq, Prod.mk.injEq] at h
      rcases h with ⟨hp, hst⟩
      subst hst
      subst hp
      simp [createProvider, hs]
    | none =>
      cases ha : apis.lookup name with
      | none => simp [createProvider, hs, ha] at h
      | some c =>
        cases hen : c.enabled with
        | false => simp [createProvider, hs, ha, hen] at h
        | true =>
          cases hkey : strTruthy c.apiKey with
          | false => simp [createProvider, hs, ha, hen, hkey] at h
          | true =>
            simp only [createProvider, hs, ha, hen, hkey, Bool.not_true,
              Bool.false_eq_true, if_false] at h
            simp only [Except.ok.injEq, Prod.mk.injEq] at h
            rcases h with ⟨hp, hst⟩
            rw [createProvider, ← hst]
            simp only [List.lookup, beq_self_eq_true]
            rw [hp]
  · intro n
    unfold getAvailableProviders
    constructor
    · intro hn
      rcases List.mem_map.1 hn with ⟨pc, hpc, hname⟩
      rcases List.mem_filter.1 hpc with ⟨hmem, hcond⟩
      rw [Bool.and_eq_true] at hcond
      rcases hcond with ⟨h1, h2⟩
      cases pc with
      | mk a b =>
        cases hname
        exact ⟨b, hmem, h1, h2⟩
    · rintro ⟨c, hmem, h1, h2⟩
      exact List.mem_map.2 ⟨(n, c), List.mem_filter.2 ⟨hmem, by simp [h1, h2]⟩, rfl⟩

/-- Configuration entry for a usable gemini provider. -/
def cfgGem : ProviderConfig :=
  { apiKey := some "key-123"
    baseUrl := "https://generativelanguage.googleapis.com/v1beta"
    model := "gemini-2.5-pro"
    format := ProviderFormat.gemini
    enabled := true }

/-- Concrete provider configuration table. -/
def apisW : List (String × ProviderConfig) := [("gemini", cfgGem)]

/-- C8 witness: the registry law evaluated on the concrete configuration
table. -/
theorem providerFactory_spec_witness :
    (createProvider apisW [] "gemini").isOk = true
    ∧ "gemini" ∈ getAvailableProviders apisW :=
  ⟨(providerFactory_spec apisW [] "gemini").2.2.2.1 cfgGem (by decide) (by decide)
      (by decide) (by decide),
   ((providerFactory_spec apisW [] "gemini").2.2.2.2.2 "gemini").2
      ⟨cfgGem, by decide, by decide, by decide⟩⟩

/-! ## C9: saveMessage upsert -/

/-- C9: saveMessage has upsert semantics: after saving a row exactly one stored
row carries its id, saving a second row with the same id still leaves exactly
one such row (the second save replaces the first), and re-saving the identical
row leaves the table unchanged. -/
theorem saveMessage_upsert (table : List MessageRow) (r r2 : MessageRow)
    (hid : r2.id = r.id) :
    ((saveMessage table r).filter (fun row => row.id == r.id)).length = 1
    ∧ ((saveMessage (saveMessage table r) r2).filter (fun row => row.id == r.id)).length = 1
    ∧ saveMessage (saveMessage table r) r = saveMessage table r := by
  have hfilter : ∀ (t : List MessageRow) (x : MessageRow),
      (saveMessage t x).filter (fun row => row.id == x.id) = [x] := by
    intro t x
    unfold saveMessage
    rw [List.filter_append]
    have h1 : (t.filter (fun r0 => !(r0.id == x.id))).filter (fun row => row.id == x.id)
        = [] := by
      rw [List.filter_filter]
      rw [List.filter_eq_nil_iff]
      intro a _
      simp
    rw [h1]
    simp
  have hidem : saveMessage (saveMessage table r) r = saveMessage table r := by
    show ((saveMessage table r).filter (fun r0 => !(r0.id == r.id))) ++ [r]
        = saveMessage table r
    unfold saveMessage
    rw [List.filter_append, List.filter_filter]
    have h2 : table.filter (fun a => !(a.id == r.id) && !(a.id == r.id))
        = table.filter (fun a => !(a.id == r.id)) := by
      apply List.filter_congr
      intro a _
      rw [Bool.and_self]
    rw [h2]
    simp
  refine ⟨by rw [hfilter]; rfl, ?_, hidem⟩
  rw [← hid, hfilter]
  rfl

/-- Concrete stored message row. -/
def rowA : MessageRow :=
  { id := "m1"
    conversationId := "c1"
    role := "assistant"
    content := "第一版回答"
    model := some "gemini"
    timestamp := "2024-01-01T00:00:00.000Z"
    metadata := "\x7b\x7d" }

/-- A second row reusing the same message id. -/
def rowB : MessageRow :=
  { rowA with content := "第二版回答" }

/-- C9 witness: the upsert law evaluated on a concrete double save with the
same message id. -/
theorem saveMessage_upsert_witness :
    ((saveMessage (saveMessage [] rowA) rowB).filter
      (fun row => row.id == rowA.id)).length = 1 :=
  (saveMessage_upsert [] rowA rowB rfl).2.1

/-! ## C10: participant response totality -/

/-- C10: getParticipantResponse is total — it resolves for every outcome of the
provider call race.  A thrown provider error or timeout yields an assistant
message flagged isErrorMessage whose metadata error carries the failure reason
and whose content contains the placeholder marker; a call that returned
whitespace-only text yields the same kind of placeholder with the
empty-response reason; a call that returned non-empty text yields a clean
assistant message without error fields. -/
theorem participantResponse_spec (p : AIParticipant) (outcome : Except String String) :
    (∀ e, outcome = Except.error e →
      (getParticipantResponse p outcome).isErrorMessage = true
      ∧ (getParticipantResponse p outcome).error = some e
      ∧ strContains (getParticipantResponse p outcome).content "暂时无法响应" = true)
    ∧ (∀ s, outcome = Except.ok s → (jsTrim s).length = 0 →
      (getParticipantResponse p outcome).isErrorMessage = true
      ∧ (getParticipantResponse p outcome).error = some ("Empty response from " ++ p.name)
      ∧ strContains (getParticipantResponse p outcome).content "暂时无法响应" = true)
    ∧ (∀ s, outcome = Except.ok s → (jsTrim s).length ≠ 0 →
      getParticipantResponse p outcome
        = { id := ""
            role := "assistant"
            content := s
            model := some p.provider
            participantId := some p.id
            participantName := some p.name
            participantRole := some p.role
            error := none
            isErrorMessage := false }) := by
  refine ⟨?_, ?_, ?_⟩
  · intro e he
    subst he
    refine ⟨rfl, rfl, ?_⟩
    exact strContains_embed ("[" ++ p.name) " 暂时无法响应: " (e ++ "]")
      "暂时无法响应" (by decide)
  · intro s hs hempty
    subst hs
    have hcond : ((jsTrim s).length == 0) = true := by simp [hempty]
    refine ⟨?_, ?_, ?_⟩
    · simp [getParticipantResponse, hcond]
    · simp [getParticipantResponse, hcond]
    · simp only [getParticipantResponse, hcond, if_true]
      exact strContains_embed ("[" ++ p.name) " 暂时无法响应: "
        ("Empty response from " ++ p.name ++ "]") "暂时无法响应" (by decide)
  · intro s hs hne
    subst hs
    have hcond : ((jsTrim s).length == 0) = false := by simp [hne]
    simp [getParticipantResponse, hcond]

/-- C10 witness: totality evaluated at a thrown error and at a successful
response of the concrete gemini participant. -/
theorem participantResponse_spec_witness :
    ((getParticipantResponse synGemini (Except.error "boom")).isErrorMessage = true
      ∧ (getParticipantResponse synGemini (Except.error "boom")).error = some "boom"
      ∧ strContains (getParticipantResponse synGemini (Except.error "boom")).content
          "暂时无法响应" = true)
    ∧ getParticipantResponse synGemini (Except.ok "你好")
        = { id := ""
            role := "assistant"
            content := "你好"
            model := some "gemini"
            participantId := some ""
            participantName := some "综合者"
            participantRole := some "综合者"
            error := none
            isErrorMessage := false } :=
  ⟨(participantResponse_spec synGemini (Except.error "boom")).1 "boom" rfl,
   (participantResponse_spec synGemini (Except.ok "你好")).2.2 "你好" rfl (by decide)⟩

end Brainstorm
